import Mathlib

/-!
Shallow embedding of `src/publication_tracker.py` (publication-metrics
repository) and proofs about the spec's claims.

Conventions of the embedding:
* Python strings are Lean `String`s; the character-level operations
  (`lower()`, `strip()`, `split(":")[0]`, substring `in`) are modelled over
  `List Char` with ASCII case folding and the ASCII/C0 whitespace set, which
  covers every string the program manipulates.
* Python dicts keyed by insertion order (`engrxiv_cache`) are association
  lists `List (String × Nat)` scanned front to back, matching `dict.items()`
  iteration order.
* Each network call is modelled by an explicit input of type `Fetch β`:
  either `exn` (the `requests` call, or the JSON parse of its body, raised —
  all such exceptions land in the same `except` handler) or
  `ok status body` (a response with the given status code whose body parsed
  to `body`).  Missing JSON keys are `Option` fields (`none` = key absent).
* Python `float` arithmetic (`round(x, 1)`, TextBlob polarity) is modelled
  by exact rationals `Rat`.
-/

namespace PubTracker

/-- The C0/ASCII whitespace set of Python `str.strip()` / `\s`. -/
def isPySpace (c : Char) : Bool :=
  c = ' ' || c = '\t' || c = '\n' || c = '\r' || c = '\x0b' || c = '\x0c'

/-- ASCII model of Python `str.lower()` on one character. -/
def pyLowerChar (c : Char) : Char :=
  if 'A' ≤ c && c ≤ 'Z' then Char.ofNat (c.toNat + 32) else c

/-- Python `s.lower()`. -/
def pyLower (cs : List Char) : List Char := cs.map pyLowerChar

/-- Python `s.strip()`: drop leading and trailing whitespace. -/
def pyStrip (cs : List Char) : List Char :=
  ((cs.dropWhile isPySpace).reverse.dropWhile isPySpace).reverse

/-- Python substring test `needle in hay` (contiguous substring). -/
def substrB (needle hay : List Char) : Bool := decide (needle <:+: hay)

/-- Python `s.split(":")[0]`: the segment before the first colon
(the whole string when no colon occurs). -/
def beforeColon (cs : List Char) : List Char := cs.takeWhile (fun c => c ≠ ':')

/-!
## Title Reconciler — `get_engrxiv_stats_from_cache` (lines 218–233)

The cache is the insertion-ordered dict `engrxiv_cache`, passed explicitly.
-/

/-- `t_target = target_title.lower().strip()` (line 221). -/
def tier1Key (title : String) : List Char := pyStrip (pyLower title.toList)

/-- `t_target_base = t_target.split(":")[0].strip()` (line 228). -/
def tier2Key (title : String) : List Char := pyStrip (beforeColon (tier1Key title))

/-- The Tier-1 test for one cache entry (lines 224–226): normalize the cached
title, require the substring relation in either direction, and require the
normalized cached length to exceed 10.  The Python loop's
`if substr: if len > 10: return` with no `else` continues scanning otherwise,
which is exactly the conjunction. -/
def tier1Hit (tTarget : List Char) (e : String × Nat) : Bool :=
  let tCached := pyStrip (pyLower e.1.toList)
  (substrB tTarget tCached || substrB tCached tTarget) && decide (tCached.length > 10)

/-- The Tier-2 test for one cache entry (lines 230–231):
`cached_title.lower().split(":")[0].strip()` equal to the target's base
segment, with the target base segment longer than 5. -/
def tier2Hit (tTargetBase : List Char) (e : String × Nat) : Bool :=
  let tCachedBase := pyStrip (beforeColon (pyLower e.1.toList))
  (tTargetBase == tCachedBase) && decide (tTargetBase.length > 5)

/-- The Tier-1 `for` loop (lines 223–226): first entry passing `tier1Hit`
wins, returning its download count. -/
def tier1Scan (tTarget : List Char) : List (String × Nat) → Option Nat
  | [] => none
  | e :: rest => if tier1Hit tTarget e then some e.2 else tier1Scan tTarget rest

/-- The Tier-2 `for` loop (lines 229–232). -/
def tier2Scan (tTargetBase : List Char) : List (String × Nat) → Option Nat
  | [] => none
  | e :: rest => if tier2Hit tTargetBase e then some e.2 else tier2Scan tTargetBase rest

/-- `get_engrxiv_stats_from_cache(target_title)` (lines 218–233), with the
module-level `engrxiv_cache` passed explicitly.  Returns the Python pair
`(None, downloads)`. -/
def get_engrxiv_stats_from_cache (cache : List (String × Nat)) (target_title : String) :
    Option Nat × Nat :=
  if cache.isEmpty then (none, 0)
  else
    let tTarget := tier1Key target_title
    match tier1Scan tTarget cache with
    | some dl => (none, dl)
    | none =>
      match tier2Scan (pyStrip (beforeColon tTarget)) cache with
      | some dl => (none, dl)
      | none => (none, 0)

theorem tier1Scan_eq_find (t : List Char) (l : List (String × Nat)) :
    tier1Scan t l = (l.find? (tier1Hit t)).map Prod.snd := by
  induction l with
  | nil => rfl
  | cons e rest ih =>
    by_cases h : tier1Hit t e
    · simp [tier1Scan, List.find?_cons_of_pos, h]
    · simp [tier1Scan, List.find?_cons_of_neg, h, ih]

theorem tier2Scan_eq_find (t : List Char) (l : List (String × Nat)) :
    tier2Scan t l = (l.find? (tier2Hit t)).map Prod.snd := by
  induction l with
  | nil => rfl
  | cons e rest ih =>
    by_cases h : tier2Hit t e
    · simp [tier2Scan, List.find?_cons_of_pos, h]
    · simp [tier2Scan, List.find?_cons_of_neg, h, ih]

/-- C1: Tier 1 of the title reconciler.  For every cache and canonical title,
if some entry's normalized cached title contains the normalized canonical
title as a substring (or conversely) and its normalized length exceeds 10
characters, then `get_engrxiv_stats_from_cache` returns the download count of
the first such entry in cache insertion order, paired with `None`. -/
theorem C1_tier1_first_substring_match (cache : List (String × Nat)) (title : String)
    (e : String × Nat) (h : cache.find? (tier1Hit (tier1Key title)) = some e) :
    get_engrxiv_stats_from_cache cache title = (none, e.2) := by
  have hne : cache.isEmpty = false := by
    cases cache with
    | nil => simp [List.find?] at h
    | cons a l => rfl
  unfold get_engrxiv_stats_from_cache
  rw [hne]
  simp only [Bool.false_eq_true, if_false, tier1Scan_eq_find, h, Option.map_some']

/-- C1 witness: the worked example from the spec — cache
`{"A Full Long Paper Title About Something": 42}`, canonical title
`"A Full Long Paper Title"` — Tier 1 fires and the resolver returns 42. -/
theorem C1_tier1_witness :
    ([("A Full Long Paper Title About Something", 42)].find?
        (tier1Hit (tier1Key "A Full Long Paper Title"))
      = some ("A Full Long Paper Title About Something", 42))
    ∧ get_engrxiv_stats_from_cache [("A Full Long Paper Title About Something", 42)]
        "A Full Long Paper Title" = (none, 42) := by
  have hfind : [("A Full Long Paper Title About Something", 42)].find?
      (tier1Hit (tier1Key "A Full Long Paper Title"))
      = some ("A Full Long Paper Title About Something", 42) := by decide
  exact ⟨hfind, C1_tier1_first_substring_match _ _ _ hfind⟩

/-- C2: Tier 2 of the title reconciler.  When no cache entry passes the
Tier-1 test, the first entry whose lowercased, colon-split, stripped left
segment equals the canonical title's left segment — the segment being longer
than 5 characters — supplies the returned count.  Additionally, splitting on
the first colon leaves a colon-free title unchanged, so the fallback applies
to titles with no colon, the segment being the whole title. -/
theorem C2_tier2_prefix_match :
    (∀ (cache : List (String × Nat)) (title : String) (e : String × Nat),
      cache.find? (tier1Hit (tier1Key title)) = none →
      cache.find? (tier2Hit (tier2Key title)) = some e →
      get_engrxiv_stats_from_cache cache title = (none, e.2))
    ∧ (∀ cs : List Char, (∀ c ∈ cs, c ≠ ':') → beforeColon cs = cs) := by
  constructor
  · intro cache title e h1 h2
    have hne : cache.isEmpty = false := by
      cases cache with
      | nil => simp [List.find?] at h2
      | cons a l => rfl
    unfold get_engrxiv_stats_from_cache
    rw [hne]
    simp only [Bool.false_eq_true, if_false, tier1Scan_eq_find, tier2Scan_eq_find, h1]
    rw [show pyStrip (beforeColon (tier1Key title)) = tier2Key title from rfl, h2]
    rfl
  · intro cs h
    simpa [beforeColon, List.takeWhile_eq_self_iff] using h

/-- C2 witness: with the cache `{"Anatomy: Part One": 7}` (segment
`"anatomy"`, 7 characters) and canonical title `"Anatomy: Part Two"`, Tier 1
finds nothing and Tier 2 returns 7; and `beforeColon` leaves the colon-free
title `"No Colon Here"` unchanged. -/
theorem C2_tier2_witness :
    get_engrxiv_stats_from_cache [("Anatomy: Part One", 7)] "Anatomy: Part Two" = (none, 7)
    ∧ beforeColon "No Colon Here".toList = "No Colon Here".toList := by
  have h1 : [("Anatomy: Part One", 7)].find? (tier1Hit (tier1Key "Anatomy: Part Two"))
      = none := by decide
  have h2 : [("Anatomy: Part One", 7)].find? (tier2Hit (tier2Key "Anatomy: Part Two"))
      = some ("Anatomy: Part One", 7) := by decide
  exact ⟨C2_tier2_prefix_match.1 _ _ _ h1 h2,
    C2_tier2_prefix_match.2 _ (by decide)⟩

/-- C3 counterexample: with cache `{"Short: Sub A": 5}` and canonical title
`"Short: Sub B"` the reconciler returns 0, not the 5 the claim asserts: the
shared left segment `"short"` has exactly 5 characters, and the Tier-2 guard
demands strictly more than 5. -/
theorem C3_short_example_counterexample :
    get_engrxiv_stats_from_cache [("Short: Sub A", 5)] "Short: Sub B" = (none, 0)
    ∧ (0 : Nat) ≠ 5 := by
  exact ⟨by decide, by decide⟩

/-- C3 (amended): on `{"Short: Sub A": 5}` / `"Short: Sub B"`, Tier 1 fails
and Tier 2 also fails — the segment `"short"` has length 5, not `> 5` — so
the resolver returns 0; lengthening the prefix past 5 characters (cache
`{"Shorter: Sub A": 5}`, title `"Shorter: Sub B"`) makes Tier 2 fire and
return 5. -/
theorem C3_amended_prefix_guard :
    get_engrxiv_stats_from_cache [("Short: Sub A", 5)] "Short: Sub B" = (none, 0)
    ∧ get_engrxiv_stats_from_cache [("Shorter: Sub A", 5)] "Shorter: Sub B" = (none, 5) := by
  exact ⟨by decide, by decide⟩

/-- C4: the reconciler's default.  On an empty cache, and whenever neither the
Tier-1 scan nor the Tier-2 scan accepts any entry, `get_engrxiv_stats_from_cache`
returns the plain count 0 (as the pair `(None, 0)`) — no error and no
"unknown" sentinel. -/
theorem C4_default_zero :
    (∀ title : String, get_engrxiv_stats_from_cache [] title = (none, 0))
    ∧ (∀ (cache : List (String × Nat)) (title : String),
      cache.find? (tier1Hit (tier1Key title)) = none →
      cache.find? (tier2Hit (tier2Key title)) = none →
      get_engrxiv_stats_from_cache cache title = (none, 0)) := by
  constructor
  · intro title
    rfl
  · intro cache title h1 h2
    unfold get_engrxiv_stats_from_cache
    by_cases hc : cache.isEmpty
    · rw [hc]
      rfl
    · rw [Bool.not_eq_true] at hc
      rw [hc]
      simp only [Bool.false_eq_true, if_false, tier1Scan_eq_find, tier2Scan_eq_find, h1]
      rw [show pyStrip (beforeColon (tier1Key title)) = tier2Key title from rfl, h2]
      rfl

/-- C4 witness: the empty cache returns 0 for the title `"Anything"`, and the
cache `{"Completely Different": 9}` matches `"No Relation At All"` in neither
tier, returning 0. -/
theorem C4_default_zero_witness :
    get_engrxiv_stats_from_cache [] "Anything" = (none, 0)
    ∧ get_engrxiv_stats_from_cache [("Completely Different", 9)] "No Relation At All"
      = (none, 0) := by
  refine ⟨C4_default_zero.1 "Anything", C4_default_zero.2 _ _ ?_ ?_⟩
  · decide
  · decide

/-!
## Source adapters (lines 207–303)

Each adapter's network traffic is an explicit input.  `Fetch β` models one
`requests.get` call: `exn` covers a raised request (timeout, transport error)
or a body whose JSON parse raises — every such exception reaches the same
`except` handler; `ok status body` is a response with the given status code
and parsed body.  Missing JSON keys are `none` fields.
-/

/-- One HTTP fetch as seen by an adapter. -/
inductive Fetch (β : Type) where
  | exn : Fetch β
  | ok (status : Nat) (body : β) : Fetch β

/-- The `stats` object of the first Zenodo hit. -/
structure ZenodoStats where
  unique_views : Option Int
  unique_downloads : Option Int
deriving DecidableEq

/-- The Zenodo response body as accessed by the code: `data['hits']['total']`
(`none` = the key path is absent, so the access raises) and
`data['hits']['hits'][0]['stats']` (`none` = any step of that path raises). -/
structure ZenodoBody where
  hitsTotal : Option Nat
  firstHitStats : Option ZenodoStats
deriving DecidableEq

/-- `get_zenodo_stats(doi)` (lines 207–216).  The code never inspects
`r.status_code`; every exception — request failure, JSON parse failure,
missing key path — falls to `except: return None, None`, modelled by the
`(none, none)` branches. -/
def get_zenodo_stats (resp : Fetch ZenodoBody) : Option Int × Option Int :=
  match resp with
  | .exn => (none, none)
  | .ok _ body =>
    match body.hitsTotal with
    | none => (none, none)
    | some total =>
      if total > 0 then
        match body.firstHitStats with
        | none => (none, none)
        | some st => (some (st.unique_views.getD 0), some (st.unique_downloads.getD 0))
      else (none, none)

/-- The Altmetric response body fields the code reads. -/
structure AltmetricBody where
  score : Option Rat
  cited_by_posts_count : Option Int
  cited_by_tweeters_count : Option Int
  details_url : Option String
deriving DecidableEq

/-- The dict built by `get_altmetric_data`.  The failure dict `{"score": 0}`
is modelled as `altNoData` below: every downstream read goes through
`.get(key, 0)` / `.get(key)`, under which the one-key dict and
`⟨0, 0, 0, none⟩` are indistinguishable. -/
structure AltmetricResult where
  score : Rat
  cited_by_posts_count : Int
  cited_by_tweeters_count : Int
  details_url : Option String
deriving DecidableEq

/-- The adapter's "no data" dict `{"score": 0}` (lines 247–248). -/
def altNoData : AltmetricResult := ⟨0, 0, 0, none⟩

/-- `get_altmetric_data(doi)` (lines 235–248): on HTTP 200 build the result
dict with `.get` defaults; any other status, or any exception, yields
`{"score": 0}`. -/
def get_altmetric_data (resp : Fetch AltmetricBody) : AltmetricResult :=
  match resp with
  | .exn => altNoData
  | .ok st b =>
    if st = 200 then
      ⟨b.score.getD 0, b.cited_by_posts_count.getD 0,
        b.cited_by_tweeters_count.getD 0, b.details_url⟩
    else altNoData

/-!
### Hacker News adapter (lines 250–284)
-/

/-- One hit of the Algolia story search. -/
structure HNHit where
  objectID : Option String
  points : Option Int
  num_comments : Option Int
  title : Option String
deriving DecidableEq

/-- One comment hit of the Algolia comment search. -/
structure HNComment where
  author : Option String
  comment_text : Option String
deriving DecidableEq

/-- One entry of `comments_preview`. -/
structure CommentPreview where
  author : Option String
  text : List Char
deriving DecidableEq

/-- Helper for `re.sub('<[^<]+?>', '', text)`: given the characters after a
`<`, consume lazily one-or-more non-`<` characters up to a closing `>`;
return the remainder after the match, or `none` when the pattern cannot
match at this `<`. -/
def tagEnd : List Char → Option (List Char)
  | [] => none
  | c :: rest =>
    if c = '<' then none
    else
      let rec go : List Char → Option (List Char)
        | [] => none
        | d :: rest2 => if d = '>' then some rest2 else if d = '<' then none else go rest2
      go rest

theorem tagEnd_go_length (l : List Char) (r : List Char) (h : tagEnd.go l = some r) :
    r.length < l.length := by
  induction l with
  | nil => simp [tagEnd.go] at h
  | cons d rest2 ih =>
    by_cases hgt : d = '>'
    · simp [tagEnd.go, hgt] at h
      subst h
      simp
    · by_cases hlt : d = '<'
      · simp [tagEnd.go, hgt, hlt] at h
      · simp [tagEnd.go, hgt, hlt] at h
        exact Nat.lt_trans (ih h) (Nat.lt_succ_self _)

theorem tagEnd_length (l : List Char) (r : List Char) (h : tagEnd l = some r) :
    r.length < l.length := by
  cases l with
  | nil => simp [tagEnd] at h
  | cons c rest =>
    by_cases hc : c = '<'
    · simp [tagEnd, hc] at h
    · simp [tagEnd, hc] at h
      exact Nat.lt_trans (tagEnd_go_length rest r h) (Nat.lt_succ_self _)

/-- `re.sub('<[^<]+?>', '', text)` (line 269): delete every non-overlapping
leftmost-first match of a `<...>` run containing no inner `<`. -/
def stripTags (cs : List Char) : List Char :=
  match cs with
  | [] => []
  | c :: rest =>
    if c = '<' then
      match h : tagEnd rest with
      | some rem => stripTags rem
      | none => c :: stripTags rest
    else c :: stripTags rest
termination_by cs.length
decreasing_by
  all_goals simp_wf
  exact Nat.lt_trans (tagEnd_length _ _ h) (Nat.lt_succ_self _)

/-- `clean_text[:150] + "..." if len(clean_text) > 150 else clean_text`
(line 270). -/
def truncate150 (cs : List Char) : List Char :=
  if cs.length > 150 then cs.take 150 ++ "...".toList else cs

/-- The preview built for one comment (lines 268–274):
`c.get('comment_text', '')`, markup stripped, truncated to 150 characters. -/
def commentPreviewOf (c : HNComment) : CommentPreview :=
  { author := c.author,
    text := truncate150 (stripTags (c.comment_text.getD "").toList) }

/-- `search_query = title.split(":")[0].strip()` (line 251). -/
def hnQuery (title : String) : List Char := pyStrip (beforeColon title.toList)

/-- The bundle returned on a found story. -/
structure HNResult where
  points : Int
  comments_count : Int
  objectID : Option String
  title : Option String
  comments_preview : List CommentPreview
deriving DecidableEq

/-- `get_hacker_news_details(title)` (lines 250–284).  `searchResp` is the
story-search request, `commentsResp` the comment request issued for a found
hit.  A raised comment request propagates to the outer `except: pass`, so the
whole call returns `None`; a non-200 comment response merely leaves
`comments_preview` empty. -/
def get_hacker_news_details (title : String) (searchResp : Fetch (List HNHit))
    (commentsResp : Fetch (List HNComment)) : Option HNResult :=
  let _query := hnQuery title
  match searchResp with
  | .exn => none
  | .ok st hits =>
    if st = 200 then
      match hits with
      | [] => none
      | best :: _ =>
        match commentsResp with
        | .exn => none
        | .ok st2 cs =>
          let preview := if st2 = 200 then cs.map commentPreviewOf else []
          some { points := best.points.getD 0,
                 comments_count := best.num_comments.getD 0,
                 objectID := best.objectID,
                 title := best.title,
                 comments_preview := preview }
    else none

/-!
### ResearchGate rough-estimate adapter (lines 286–295)
-/

/-- The adapter's return value: an integer reads count or the string
sentinel `"Protected"`. -/
inductive RGReads where
  | reads (n : Nat) : RGReads
  | protectedMark : RGReads
deriving DecidableEq

/-- Numeric value of a digit run, as Python `int()` of the captured group. -/
def digitsToNat (ds : List Char) : Nat :=
  ds.foldl (fun acc c => acc * 10 + (c.toNat - '0'.toNat)) 0

/-- `re.search(r"(\d+)\s*Reads", desc)` (line 292): the leftmost position
holding a maximal digit run followed by optional whitespace and the literal
`Reads`; returns the run's value.  (The lazy `\d+?`-style backtracking
collapses to the maximal run: a shorter run leaves a digit where `\s*Reads`
must start.) -/
def findReadsNum : List Char → Option Nat
  | [] => none
  | c :: rest =>
    if c.isDigit then
      let ds := (c :: rest).takeWhile Char.isDigit
      let after := (c :: rest).dropWhile Char.isDigit
      if decide ("Reads".toList <+: after.dropWhile isPySpace)
      then some (digitsToNat ds)
      else findReadsNum rest
    else findReadsNum rest

/-- The `for res in results` loop (lines 290–293).  A `None` description makes
`re.search` raise, reaching `except: pass` and the final `return "Protected"`. -/
def rgScan : List (Option String) → RGReads
  | [] => RGReads.protectedMark
  | none :: _ => RGReads.protectedMark
  | some d :: rest =>
    match findReadsNum d.toList with
    | some n => RGReads.reads n
    | none => rgScan rest

/-- `get_researchgate_rough(title)` (lines 286–295): the `results` input is
the outcome of the external `googlesearch.search(query, num_results=2,
advanced=True)` call — `.error` when the search raises, otherwise the
descriptions of the returned results. -/
def get_researchgate_rough (results : Except Unit (List (Option String))) : RGReads :=
  match results with
  | .error _ => RGReads.protectedMark
  | .ok l => rgScan l

/-!
## Sentiment classifier (lines 297–303)
-/

/-- `analyze_sentiment(text)` (lines 297–303).  `text = none` models Python
`None`; `polarity` is an oracle for the external
`TextBlob(text).sentiment.polarity` computation on this text — `.error` when
it raises (caught by `except: return "N/A"`), `.ok p` its value. -/
def analyze_sentiment (text : Option String) (polarity : Except Unit Rat) : String :=
  match text with
  | none => "N/A"
  | some t =>
    if t.isEmpty then "N/A"
    else
      match polarity with
      | .error _ => "N/A"
      | .ok pol =>
        if pol > 1/10 then "Positive"
        else if pol < -(1/10) then "Negative"
        else "Neutral"

/-- C5 counterexample: the registry-stats adapter never inspects the status
code, so a non-success response whose body still parses to hit data is NOT
converted to the no-data result `(None, None)` — a status-500 response whose
payload carries `hits.total = 1` and stats `views 7 / downloads 3` yields
`(7, 3)`. -/
theorem C5_status_ignored_counterexample :
    get_zenodo_stats (Fetch.ok 500 ⟨some 1, some ⟨some 7, some 3⟩⟩) ≠ (none, none)
    ∧ get_zenodo_stats (Fetch.ok 500 ⟨some 1, some ⟨some 7, some 3⟩⟩)
      = (some 7, some 3) := by
  exact ⟨by decide, by decide⟩

/-- C5 (amended): every adapter is total and absorbs raised exceptions
(network errors, timeouts, malformed payloads) into its documented no-data
result — `(None, None)`, `{"score": 0}`, `None`, `"Protected"` respectively —
and the mention-aggregator and forum adapters also map non-success status
codes to their no-data result; the registry-stats adapter, however, ignores
the status code and answers from the payload alone, returning `(None, None)`
exactly when the payload lacks the hits path or reports zero hits. -/
theorem C5_amended_fail_soft :
    (get_zenodo_stats Fetch.exn = (none, none))
    ∧ (∀ (st : Nat) (b : ZenodoBody), b.hitsTotal = none →
        get_zenodo_stats (Fetch.ok st b) = (none, none))
    ∧ (∀ (st : Nat) (b : ZenodoBody), b.hitsTotal = some 0 →
        get_zenodo_stats (Fetch.ok st b) = (none, none))
    ∧ (get_altmetric_data Fetch.exn = altNoData)
    ∧ (∀ (st : Nat) (b : AltmetricBody), st ≠ 200 →
        get_altmetric_data (Fetch.ok st b) = altNoData)
    ∧ (∀ (t : String) (c : Fetch (List HNComment)),
        get_hacker_news_details t Fetch.exn c = none)
    ∧ (∀ (t : String) (st : Nat) (hits : List HNHit) (c : Fetch (List HNComment)),
        st ≠ 200 → get_hacker_news_details t (Fetch.ok st hits) c = none)
    ∧ (get_researchgate_rough (Except.error ()) = RGReads.protectedMark)
    ∧ (∀ l : List (Option String), (∀ s : String, some s ∈ l → findReadsNum s.toList = none) →
        get_researchgate_rough (Except.ok l) = RGReads.protectedMark) := by
  refine ⟨rfl, ?_, ?_, rfl, ?_, ?_, ?_, rfl, ?_⟩
  · intro st b h
    simp [get_zenodo_stats, h]
  · intro st b h
    simp [get_zenodo_stats, h]
  · intro st b h
    simp [get_altmetric_data, h]
  · intro t c
    rfl
  · intro t st hits c h
    simp [get_hacker_news_details, h]
  · intro l h
    simp only [get_researchgate_rough]
    induction l with
    | nil => rfl
    | cons x rest ih =>
      cases x with
      | none => rfl
      | some d =>
        have hd : findReadsNum d.toList = none := h d (List.mem_cons_self _ _)
        simp only [rgScan, hd]
        exact ih fun s hs => h s (List.mem_cons_of_mem _ hs)

/-- C5 witness: concrete error inputs for each adapter — a Zenodo body with
the hits path missing, an Altmetric 404, a Hacker News 500, and a search
result list without the `Reads` pattern — all map to the no-data results. -/
theorem C5_amended_witness :
    get_zenodo_stats (Fetch.ok 200 ⟨none, none⟩) = (none, none)
    ∧ get_altmetric_data (Fetch.ok 404 ⟨none, none, none, none⟩) = altNoData
    ∧ get_hacker_news_details "T" (Fetch.ok 500 []) Fetch.exn = none
    ∧ get_researchgate_rough (Except.ok [some "no download figures here"])
      = RGReads.protectedMark := by
  refine ⟨C5_amended_fail_soft.2.1 200 ⟨none, none⟩ rfl,
    C5_amended_fail_soft.2.2.2.2.1 404 ⟨none, none, none, none⟩ (by decide),
    C5_amended_fail_soft.2.2.2.2.2.2.1 "T" 500 [] Fetch.exn (by decide),
    C5_amended_fail_soft.2.2.2.2.2.2.2.2 [some "no download figures here"] ?_⟩
  intro s hs
  have hs2 : s = "no download figures here" := by
    simpa using hs
  subst hs2
  decide

/-- C8: the sentiment classifier returns `"N/A"` on `None` input, on the
empty string, and when the polarity computation raises; otherwise it returns
`"Positive"` for polarity above 1/10, `"Negative"` below −1/10, and
`"Neutral"` on the closed interval between them. -/
theorem C8_sentiment_thresholds :
    (∀ p, analyze_sentiment none p = "N/A")
    ∧ (∀ p, analyze_sentiment (some "") p = "N/A")
    ∧ (∀ t : String, t.isEmpty = false → analyze_sentiment (some t) (Except.error ()) = "N/A")
    ∧ (∀ (t : String) (q : Rat), t.isEmpty = false → q > 1/10 →
        analyze_sentiment (some t) (Except.ok q) = "Positive")
    ∧ (∀ (t : String) (q : Rat), t.isEmpty = false → q < -(1/10) →
        analyze_sentiment (some t) (Except.ok q) = "Negative")
    ∧ (∀ (t : String) (q : Rat), t.isEmpty = false → -(1/10) ≤ q → q ≤ 1/10 →
        analyze_sentiment (some t) (Except.ok q) = "Neutral") := by
  refine ⟨fun p => rfl, fun p => rfl, ?_, ?_, ?_, ?_⟩
  · intro t h
    simp [analyze_sentiment, h]
  · intro t q h hq
    unfold analyze_sentiment
    simp only [h, Bool.false_eq_true, if_false]
    rw [if_pos hq]
  · intro t q h hq
    unfold analyze_sentiment
    simp only [h, Bool.false_eq_true, if_false]
    rw [if_neg (by linarith : ¬ q > 1/10), if_pos hq]
  · intro t q h h1 h2
    unfold analyze_sentiment
    simp only [h, Bool.false_eq_true, if_false]
    rw [if_neg (by linarith : ¬ q > 1/10), if_neg (by linarith : ¬ q < -(1/10))]

/-- C8 witness: `"good"` at polarity 1/2 is Positive, at −1/2 Negative, at 0
Neutral, and at a raised polarity `"N/A"`. -/
theorem C8_sentiment_witness :
    analyze_sentiment (some "good") (Except.ok (1/2)) = "Positive"
    ∧ analyze_sentiment (some "good") (Except.ok (-(1/2))) = "Negative"
    ∧ analyze_sentiment (some "good") (Except.ok 0) = "Neutral"
    ∧ analyze_sentiment (some "good") (Except.error ()) = "N/A" :=
  ⟨C8_sentiment_thresholds.2.2.2.1 "good" (1/2) rfl (by norm_num),
   C8_sentiment_thresholds.2.2.2.2.1 "good" (-(1/2)) rfl (by norm_num),
   C8_sentiment_thresholds.2.2.2.2.2 "good" 0 rfl (by norm_num) (by norm_num),
   C8_sentiment_thresholds.2.2.1 "good" rfl⟩

/-- C10: the forum-discussion adapter returns `None` when the story search
raises, when it answers with a non-success status, when it returns no hits,
and when the comment fetch for an already-found hit raises — exactly the same
`None` a hit-less search produces, so the caller cannot tell "no discussion"
from "service failed". -/
theorem C10_hn_none_ambiguity :
    (∀ (t : String) (c : Fetch (List HNComment)),
      get_hacker_news_details t Fetch.exn c = none)
    ∧ (∀ (t : String) (st : Nat) (hits : List HNHit) (c : Fetch (List HNComment)),
        st ≠ 200 → get_hacker_news_details t (Fetch.ok st hits) c = none)
    ∧ (∀ (t : String) (st : Nat) (c : Fetch (List HNComment)),
        get_hacker_news_details t (Fetch.ok st []) c = none)
    ∧ (∀ (t : String) (best : HNHit) (hits : List HNHit),
        get_hacker_news_details t (Fetch.ok 200 (best :: hits)) Fetch.exn = none) := by
  refine ⟨fun t c => rfl, ?_, ?_, ?_⟩
  · intro t st hits c h
    simp [get_hacker_news_details, h]
  · intro t st c
    by_cases h : st = 200
    · subst h
      rfl
    · simp [get_hacker_news_details, h]
  · intro t best hits
    rfl

/-- C10 witness: a raised search, a 503 search response, an empty hit list,
and a raised comment fetch after a found hit all return `None`. -/
theorem C10_hn_none_witness :
    get_hacker_news_details "A" Fetch.exn (Fetch.ok 200 []) = none
    ∧ get_hacker_news_details "A" (Fetch.ok 503 [⟨some "1", some 9, some 2, some "A"⟩])
        (Fetch.ok 200 []) = none
    ∧ get_hacker_news_details "A" (Fetch.ok 200 []) (Fetch.ok 200 []) = none
    ∧ get_hacker_news_details "A" (Fetch.ok 200 [⟨some "1", some 9, some 2, some "A"⟩])
        Fetch.exn = none :=
  ⟨C10_hn_none_ambiguity.1 "A" (Fetch.ok 200 []),
   C10_hn_none_ambiguity.2.1 "A" 503 [⟨some "1", some 9, some 2, some "A"⟩]
     (Fetch.ok 200 []) (by decide),
   C10_hn_none_ambiguity.2.2.1 "A" 200 (Fetch.ok 200 []),
   C10_hn_none_ambiguity.2.2.2 "A" ⟨some "1", some 9, some 2, some "A"⟩ []⟩

/-!
## Main loop, derived rate, report row and corpus statistics
(lines 307–344, 375–407)
-/

/-- A dynamically-typed Python value as held by the `Views` variable:
`None`, an integer, or a string (`"N/A"` for engrXiv records). -/
inductive PyVal where
  | none : PyVal
  | int (n : Int) : PyVal
  | str (s : String) : PyVal
deriving DecidableEq

/-- One entry of the configured `DOIs` list (lines 39–70). -/
structure Publication where
  doi : String
  title : String
  platform : String
deriving DecidableEq

/-- The per-publication dict appended to `records` (lines 396–400). -/
structure MRec where
  title : String
  platform : String
  doi : String
  views : PyVal
  downloads : Option Int
  dlRate : String
  altmetric : AltmetricResult
  hackernews : Option HNResult
  rgReads : RGReads
deriving DecidableEq

/-- Python `round(q, 0)`-style round-half-to-even of an exact rational to an
integer (the embedding of `float` arithmetic by exact rationals). -/
def roundHalfEvenInt (q : Rat) : Int :=
  let f := ⌊q⌋
  let frac := q - (f : Rat)
  if frac < 1/2 then f
  else if (1/2 : Rat) < frac then f + 1
  else if f % 2 = 0 then f else f + 1

/-- The f-string rendering `f"{round(x, 1)}%"` for the one-decimal value
`n / 10`: Python's shortest float repr of a one-decimal float is
`"<int part>.<decimal digit>"`. -/
def fmtPct1 (n : Int) : String :=
  let a := n.natAbs
  let core := Nat.repr (a / 10) ++ "." ++ Nat.repr (a % 10) ++ "%"
  if n < 0 then "-" ++ core else core

/-- Lines 392–394: `dl_rate = "-"`, overwritten with the rounded percentage
exactly when `views` and `downloads` are both ints and `views > 0`. -/
def computeDlRate (views : PyVal) (downloads : Option Int) : String :=
  match views, downloads with
  | PyVal.int v, some d =>
    if v > 0 then fmtPct1 (roundHalfEvenInt ((d : Rat) / (v : Rat) * 100 * 10)) else "-"
  | _, _ => "-"

/-- Lines 326–328 of `generate_markdown_report`: the displayed rate starts as
the record's stored `DL Rate` and is overwritten with `"N/A"` for every
non-Zenodo platform.  The record itself is read-only here. -/
def dlRateDisplay (r : MRec) : String :=
  if r.platform ≠ "Zenodo" then "N/A" else r.dlRate

/-- The network's answers for one publication's adapter calls: an oracle
supplying the response of each request the loop body issues, plus the shared
read-only engrXiv cache. -/
structure NetEnv where
  zenodo : Fetch ZenodoBody
  cache : List (String × Nat)
  altmetric : Fetch AltmetricBody
  hnSearch : Fetch (List HNHit)
  hnComments : Fetch (List HNComment)
  rg : Except Unit (List (Option String))

/-- One iteration of the main loop (lines 378–400): platform-dispatched
views/downloads, derived rate, and the three social adapters, assembled into
the appended record. -/
def processPub (item : Publication) (env : NetEnv) : MRec :=
  let vd : PyVal × Option Int :=
    if item.platform = "Zenodo" then
      let zs := get_zenodo_stats env.zenodo
      (match zs.1 with
        | some v => PyVal.int v
        | none => PyVal.none,
       zs.2)
    else if item.platform = "engrXiv" then
      let es := get_engrxiv_stats_from_cache env.cache item.title
      (PyVal.str "N/A", some (es.2 : Int))
    else (PyVal.none, none)
  { title := item.title,
    platform := item.platform,
    doi := item.doi,
    views := vd.1,
    downloads := vd.2,
    dlRate := computeDlRate vd.1 vd.2,
    altmetric := get_altmetric_data env.altmetric,
    hackernews := get_hacker_news_details item.title env.hnSearch env.hnComments,
    rgReads := get_researchgate_rough env.rg }

/-- The `for item in tqdm(DOIs)` loop (lines 378–401): one record appended
per publication, in list order.  `env` supplies the network's responses for
each publication's calls. -/
def runAll (pubs : List Publication) (env : Publication → NetEnv) : List MRec :=
  match pubs with
  | [] => []
  | p :: rest => processPub p (env p) :: runAll rest env

/-!
### Corpus statistics (lines 404–407), the pandas pipeline stage by stage
-/

/-- `pd.to_numeric(col, errors='coerce')` on a column of ints and `None`s:
`None` becomes NaN (modelled `none`), ints become numbers. -/
def toNumericCoerce (v : Option Int) : Option Rat := v.map (fun n : Int => (n : Rat))

/-- `.fillna(0)`. -/
def fillna0 (col : List (Option Rat)) : List Rat := col.map (fun x => x.getD 0)

/-- `.dropna()`. -/
def dropna (col : List (Option Rat)) : List Rat := col.filterMap id

/-- `.mean()`: NaN (modelled `none`) on an empty column. -/
def seriesMean (xs : List Rat) : Option Rat :=
  if xs.isEmpty then none else some (xs.sum / (xs.length : Rat))

/-- Pandas `df['Title'].str.contains(pat, case=False)` for the literal
pattern used here: case-insensitive substring test. -/
def strContainsCI (hay pat : String) : Bool :=
  substrB (pyLower pat.toList) (pyLower hay.toList)

/-- Line 405: `total_dl = pd.to_numeric(df['Downloads'], errors='coerce').fillna(0).sum()`. -/
def total_dl (records : List MRec) : Rat :=
  (fillna0 ((records.map MRec.downloads).map toNumericCoerce)).sum

/-- Line 406: the rows whose title does not contain `"Technical Letter"`
case-insensitively. -/
def df_for_avg (records : List MRec) : List MRec :=
  records.filter (fun r => !(strContainsCI r.title "Technical Letter"))

/-- Line 407: `avg_dl = pd.to_numeric(df_for_avg['Downloads'], errors='coerce').dropna().mean()`. -/
def avg_dl (records : List MRec) : Option Rat :=
  seriesMean (dropna (((df_for_avg records).map MRec.downloads).map toNumericCoerce))

theorem dropna_map_downloads (l : List MRec) :
    dropna ((l.map MRec.downloads).map toNumericCoerce)
      = (l.filterMap MRec.downloads).map (fun n : Int => (n : Rat)) := by
  induction l with
  | nil => rfl
  | cons r rest ih =>
    cases hr : r.downloads <;>
      simp [dropna, toNumericCoerce, List.filterMap_cons, hr, ih] <;>
      simpa [dropna, toNumericCoerce] using ih

theorem sum_map_ratCast (l : List Int) :
    (l.map (fun n : Int => (n : Rat))).sum = ((l.sum : Int) : Rat) := by
  induction l with
  | nil => simp
  | cons n rest ih =>
    rw [List.map_cons, List.sum_cons, List.sum_cons, ih]
    push_cast
    ring

theorem isEmpty_map {α β : Type} (f : α → β) (l : List α) :
    (l.map f).isEmpty = l.isEmpty := by
  cases l <;> rfl

/-- A record with the fields that matter for the corpus statistics; the rest
take fixed neutral values. -/
def statsRec (t : String) (d : Option Int) : MRec :=
  { title := t, platform := "Zenodo", doi := "", views := PyVal.none, downloads := d,
    dlRate := "-", altmetric := altNoData, hackernews := none,
    rgReads := RGReads.protectedMark }

/-- The spec's worked example: downloads 10, 20, None, 999, the 999 record
titled with "Technical Letter". -/
def c6Records : List MRec :=
  [statsRec "Paper A" (some 10), statsRec "Paper B" (some 20),
   statsRec "Paper C" none, statsRec "Technical Letter (ZIP)" (some 999)]

/-- C6: total downloads sums every record's count with missing values as 0;
average downloads drops records whose title contains "Technical Letter"
case-insensitively, then drops missing values (never zero-filling them), and
averages the rest; on the worked example the total is 1029 and the average
15. -/
theorem C6_corpus_stats :
    (∀ records : List MRec,
      total_dl records = (((records.map (fun r => r.downloads.getD 0)).sum : Int) : Rat))
    ∧ (∀ records : List MRec,
      avg_dl records =
        (if ((records.filter (fun r => !(strContainsCI r.title "Technical Letter"))).filterMap
            MRec.downloads).isEmpty
         then none
         else some
          (((((records.filter (fun r => !(strContainsCI r.title "Technical Letter"))).filterMap
              MRec.downloads).sum : Int) : Rat)
            / (((records.filter (fun r => !(strContainsCI r.title "Technical Letter"))).filterMap
              MRec.downloads).length : Rat))))
    ∧ total_dl c6Records = 1029
    ∧ avg_dl c6Records = some 15 := by
  refine ⟨?_, ?_, ?_, ?_⟩
  · intro records
    induction records with
    | nil => rfl
    | cons r rest ih =>
      simp only [total_dl, fillna0, List.map_cons, List.sum_cons] at ih ⊢
      cases hr : r.downloads with
      | none =>
        simpa [toNumericCoerce] using ih
      | some n =>
        simp only [toNumericCoerce, Option.map_some', Option.getD_some]
        rw [ih]
        push_cast
        ring
  · intro records
    simp only [avg_dl, df_for_avg, dropna_map_downloads, seriesMean, isEmpty_map,
      sum_map_ratCast, List.length_map]
  · norm_num [total_dl, c6Records, statsRec, fillna0, toNumericCoerce]
  · have hdf : df_for_avg c6Records
        = [statsRec "Paper A" (some 10), statsRec "Paper B" (some 20),
           statsRec "Paper C" none] := rfl
    unfold avg_dl
    rw [hdf]
    norm_num [dropna, toNumericCoerce, seriesMean, statsRec, List.filterMap_cons]

/-- C7: the stored derived rate.  With integer views `v > 0` and integer
downloads `d` the rate is `round(d / v * 100, 1)` rendered as a percentage
string — `"25.0%"` at views 200 / downloads 50 — and it is `"-"` whenever
views is `None` or a string, downloads is `None`, or `views ≤ 0`.  In the
rendered report the displayed rate is `"N/A"` exactly for non-Zenodo
platforms and the record's stored rate otherwise; the loop stores the rate
computed from the record's own views and downloads, and the display function
reads the record without changing it. -/
theorem C7_derived_rate :
    (∀ v d : Int, 0 < v → computeDlRate (PyVal.int v) (some d)
      = fmtPct1 (roundHalfEvenInt ((d : Rat) / (v : Rat) * 100 * 10)))
    ∧ computeDlRate (PyVal.int 200) (some 50) = "25.0%"
    ∧ (∀ d, computeDlRate PyVal.none d = "-")
    ∧ (∀ s d, computeDlRate (PyVal.str s) d = "-")
    ∧ (∀ v : Int, computeDlRate (PyVal.int v) none = "-")
    ∧ (∀ v d : Int, v ≤ 0 → computeDlRate (PyVal.int v) (some d) = "-")
    ∧ (∀ r : MRec, dlRateDisplay r = if r.platform = "Zenodo" then r.dlRate else "N/A")
    ∧ (∀ (pub : Publication) (env : NetEnv),
        (processPub pub env).dlRate
          = computeDlRate (processPub pub env).views (processPub pub env).downloads) := by
  refine ⟨?_, ?_, fun d => rfl, fun s d => rfl, fun v => rfl, ?_, ?_, fun pub env => rfl⟩
  · intro v d h
    simp [computeDlRate, h]
  · show computeDlRate (PyVal.int 200) (some 50) = "25.0%"
    have h1 : ((50 : Int) : Rat) / ((200 : Int) : Rat) * 100 * 10 = 250 := by norm_num
    simp only [computeDlRate]
    rw [if_pos (by norm_num : (200 : Int) > 0), h1]
    have h2 : roundHalfEvenInt 250 = 250 := by
      unfold roundHalfEvenInt
      norm_num
    rw [h2]
    rfl
  · intro v d h
    simp [computeDlRate, not_lt.mpr h]
  · intro r
    by_cases h : r.platform = "Zenodo" <;> simp [dlRateDisplay, h]

/-- C7 witness: the positive-views branch applied at views 200 / downloads
50, and the `views = 0` branch at views 0 / downloads 5. -/
theorem C7_derived_rate_witness :
    computeDlRate (PyVal.int 200) (some 50)
      = fmtPct1 (roundHalfEvenInt (((50 : Int) : Rat) / ((200 : Int) : Rat) * 100 * 10))
    ∧ computeDlRate (PyVal.int 0) (some 5) = "-" :=
  ⟨C7_derived_rate.1 200 50 (by decide),
   C7_derived_rate.2.2.2.2.2.1 0 5 (by decide)⟩

/-- C9: the main loop emits exactly one record per input publication, in
input order, and the record at each position carries that position's DOI,
title and platform. -/
theorem C9_record_order (pubs : List Publication) (env : Publication → NetEnv) :
    (runAll pubs env).length = pubs.length
    ∧ ∀ (i : Nat) (p : Publication), pubs[i]? = some p →
        ∃ r : MRec, (runAll pubs env)[i]? = some r
          ∧ r.doi = p.doi ∧ r.title = p.title ∧ r.platform = p.platform := by
  induction pubs with
  | nil =>
    refine ⟨rfl, ?_⟩
    intro i p h
    simp at h
  | cons q rest ih =>
    refine ⟨by simp [runAll, ih.1], ?_⟩
    intro i p h
    cases i with
    | zero =>
      simp only [List.getElem?_cons_zero, Option.some_inj] at h
      subst h
      refine ⟨processPub q (env q), ?_, rfl, rfl, rfl⟩
      simp [runAll]
    | succ j =>
      simp only [List.getElem?_cons_succ] at h
      simpa [runAll] using ih.2 j p h

/-- C9 witness: a two-publication list processed against an all-failing
network yields two records, and position 1 carries the second publication's
identity. -/
theorem C9_record_order_witness :
    (runAll [⟨"d1", "T1", "Zenodo"⟩, ⟨"d2", "T2", "engrXiv"⟩]
        (fun _ => ⟨Fetch.exn, [], Fetch.exn, Fetch.exn, Fetch.exn, Except.error ()⟩)).length = 2
    ∧ ∃ r : MRec,
        (runAll [⟨"d1", "T1", "Zenodo"⟩, ⟨"d2", "T2", "engrXiv"⟩]
          (fun _ => ⟨Fetch.exn, [], Fetch.exn, Fetch.exn, Fetch.exn, Except.error ()⟩))[1]?
          = some r
        ∧ r.doi = "d2" ∧ r.title = "T2" ∧ r.platform = "engrXiv" :=
  ⟨(C9_record_order _ _).1,
   (C9_record_order _ _).2 1 ⟨"d2", "T2", "engrXiv"⟩ (by decide)⟩

end PubTracker
